import Mathlib

/-!
# QKart storefront: cart mutator, cart fetcher, initial load and search debouncer

A shallow embedding of `src/components/Products.js`.  The asynchronous
functions of the component are embedded as pure functions of their arguments
and of the answer of the backend; what they do to the outside world (requests
sent, snackbar notifications, calls of `setCartItems`) is returned in an
outcome record.  The timer-driven search debouncer and the initial load are
embedded as transition systems.
-/

namespace Qkart

/-! ## Data model -/

/-- Product of the catalog (typedef `Product`). -/
structure Product where
  name : String
  category : String
  cost : Nat
  rating : Nat
  image : String
  _id : String
deriving DecidableEq, Repr

/-- Cart entry as the backend stores it: an element of the response of
`GET /cart` and of `POST /cart`. -/
structure RawCartEntry where
  productId : String
  qty : Int
deriving DecidableEq, Repr

/-- Cart line of the component state `cartItems`: the entry of the backend
(`productId`, `qty`) together with the product it refers to. -/
structure CartItem where
  productId : String
  qty : Int
  product : Product
deriving DecidableEq, Repr

/-- Variant of a snackbar notification. -/
inductive Variant where
  | warning
  | error
deriving DecidableEq, Repr

/-- One call of `enqueueSnackbar(message, { variant })`. -/
structure Notification where
  message : String
  variant : Variant
deriving DecidableEq, Repr

/-- HTTP method of a request made through axios. -/
inductive Method where
  | GET
  | POST
deriving DecidableEq, Repr

/-- One axios request: `authorization` and `contentType` are the two headers
the component ever sets, `body` is the JSON object `{ productId, qty }`. -/
structure Request where
  method : Method
  url : String
  authorization : Option String
  contentType : Option String
  body : Option (String × Int)
deriving DecidableEq, Repr

/-- Error response of the backend, `e.response`: its status and
`e.response.data.message`. -/
structure ErrorResponse where
  status : Nat
  message : String
deriving DecidableEq, Repr

/-- The error axios rejects with: `response` is `none` when no response was
received (network error) and the non-2xx response otherwise. -/
structure AxiosError where
  response : Option ErrorResponse
deriving DecidableEq, Repr

/-- Settlement of an axios promise: resolved with `response.data`, or
rejected. -/
inductive HttpResult (α : Type) where
  | ok (data : α)
  | rejected (e : AxiosError)
deriving DecidableEq, Repr

/-- The value `config` imported from `../App`; only `config.endpoint` is
used. -/
structure Config where
  endpoint : String
deriving DecidableEq, Repr

/-- The `options` argument of `addToCart`. -/
structure Options where
  preventDuplicate : Bool
deriving DecidableEq, Repr

/-- A value of JavaScript type `Array | null | undefined`, as `fetchCart`
returns it. -/
inductive CartData where
  | data (entries : List RawCartEntry)
  | null
  | undefined
deriving DecidableEq, Repr

/-! ## Cart reconciler -/

/-- Modelled from the spec: `generateCartItemsFrom` is imported from `./Cart`,
which is not among the sources.  Section 4.1: each raw entry is looked up by id
in the catalog, entries without a match are left out, the order of the entries
is kept, and an empty or absent entry list gives the empty list. -/
def generateCartItemsFrom (cartData : CartData) (productsData : List Product) :
    List CartItem :=
  match cartData with
  | .data entries =>
      entries.filterMap fun entry =>
        (productsData.find? fun product => product._id == entry.productId).map
          fun product => { productId := entry.productId, qty := entry.qty, product := product }
  | .null => []
  | .undefined => []

/-! ## Cart mutator -/

/-- Source `isItemInCart`: `!!items.find((item) => item.productId === productId)`. -/
def isItemInCart (items : List CartItem) (productId : String) : Bool :=
  (items.find? fun item => item.productId == productId).isSome

/-- The request `axios.post(config.endpoint + "/cart", { productId, qty },
{ headers })` of `addToCart`. -/
def postCartRequest (config : Config) (token productId : String) (qty : Int) : Request :=
  { method := .POST
    url := config.endpoint ++ "/cart"
    authorization := some ("Bearer " ++ token)
    contentType := some "application/json"
    body := some (productId, qty) }

/-- What one call of `addToCart` did: the requests sent, the notifications
enqueued, the arguments of the calls of `setCartItems` and the value the
promise resolved with (`none` for `undefined`). -/
structure CartOutcome where
  requests : List Request
  notifications : List Notification
  setCartItems : List (List CartItem)
  returned : Option (List RawCartEntry)
deriving DecidableEq, Repr

/-- The component state `cartItems` once the call is over, given the state
before it: the argument of the last call of `setCartItems`, if there was one. -/
def CartOutcome.cartItemsAfter (outcome : CartOutcome) (before : List CartItem) :
    List CartItem :=
  outcome.setCartItems.getLast?.getD before

/-- The warning of the `!token` guard of `addToCart`. -/
def loginWarning : Notification :=
  { message := "Login to add an item to the Cart", variant := .warning }

/-- The warning of the duplicate guard of `addToCart`. -/
def duplicateWarning : Notification :=
  { message := "Item already in cart. Use the cart sidebar to update quantity or remove item."
    variant := .warning }

/-- The error notification of the `catch` block of `addToCart`. -/
def cartUpdateError : Notification :=
  { message := "Could not Add/Update cart items. Check that the backend is running, reachable and returns valid JSON."
    variant := .error }

/-- Source `updateCartItems`: the argument it passes to `setCartItems`. -/
def updateCartItems (items : List RawCartEntry) (products : List Product) : List CartItem :=
  generateCartItemsFrom (.data items) products

/-- Source `addToCart`.  `backend` settles the request, `token` is `none` for
`null`/`undefined`, so that `!token` holds for `none` and for the empty string,
and `options` is `none` when the argument is omitted (the default
`{ preventDuplicate: false }` applies). -/
def addToCart (config : Config) (backend : Request → HttpResult (List RawCartEntry))
    (token : Option String) (items : List CartItem) (products : List Product)
    (productId : String) (qty : Int) (options : Option Options) : CartOutcome :=
  let options := options.getD { preventDuplicate := false }
  let unauthenticated : CartOutcome :=
    { requests := [], notifications := [loginWarning], setCartItems := [], returned := none }
  match token with
  | none => unauthenticated
  | some token =>
    if token = "" then unauthenticated
    else if options.preventDuplicate && isItemInCart items productId then
      { requests := [], notifications := [duplicateWarning], setCartItems := [],
        returned := none }
    else
      let request := postCartRequest config token productId qty
      match backend request with
      | .ok data =>
          { requests := [request], notifications := [],
            setCartItems := [updateCartItems data products], returned := some data }
      | .rejected _ =>
          { requests := [request], notifications := [cartUpdateError], setCartItems := [],
            returned := none }

/-! ## Cart fetcher -/

/-- The request `axios.get(config.endpoint + "/cart", { headers })` of
`fetchCart`. -/
def getCartRequest (config : Config) (token : String) : Request :=
  { method := .GET
    url := config.endpoint ++ "/cart"
    authorization := some ("Bearer " ++ token)
    contentType := none
    body := none }

/-- The generic error notification of the `catch` block of `fetchCart`. -/
def fetchCartError : Notification :=
  { message := "Could not fetch cart details. Check that the backend is running, reachable and returns valid JSON."
    variant := .error }

/-- What one call of `fetchCart` did: the requests sent, the notifications
enqueued and the value the promise resolved with. -/
structure FetchOutcome where
  requests : List Request
  notifications : List Notification
  returned : CartData
deriving DecidableEq, Repr

/-- Source `fetchCart`.  The guard is `if (!token) return;`, a bare return;
the `catch` block tests `e.response && e.response.status === 400` and ends
with `return null`. -/
def fetchCart (config : Config) (backend : Request → HttpResult (List RawCartEntry))
    (token : Option String) : FetchOutcome :=
  let absent : FetchOutcome := { requests := [], notifications := [], returned := .undefined }
  match token with
  | none => absent
  | some token =>
    if token = "" then absent
    else
      let request := getCartRequest config token
      match backend request with
      | .ok data => { requests := [request], notifications := [], returned := .data data }
      | .rejected e =>
          let shown : Notification :=
            match e.response with
            | some response =>
                if response.status = 400 then { message := response.message, variant := .error }
                else fetchCartError
            | none => fetchCartError
          { requests := [request], notifications := [shown], returned := .null }

/-! ## Initial load -/

/-- The request `axios.get(config.endpoint + "/products")` of
`performAPICall`. -/
def getProductsRequest (config : Config) : Request :=
  { method := .GET
    url := config.endpoint ++ "/products"
    authorization := none
    contentType := none
    body := none }

/-- Source `performAPICall`, after its request has settled: `response.data`,
or `[]` from the `catch` block. -/
def performAPICall (settled : HttpResult (List Product)) : List Product :=
  match settled with
  | .ok data => data
  | .rejected _ => []

/-- Where the asynchronous function `onLoadfetchData` stands: not started,
suspended at `await performAPICall()`, suspended at `await fetchCart(token)`
with a request sent (holding the local `productData`), or returned. -/
inductive LoadPhase where
  | idle
  | awaitingProducts
  | awaitingCart (productData : List Product)
  | done
deriving DecidableEq, Repr

/-- State of the component during the initial load: the phase of
`onLoadfetchData`, the requests in flight, the requests settled so far, the
state variables `loading`, `products` and `cartItems`, the notifications
enqueued and the arguments of every call of `generateCartItemsFrom`. -/
structure LoadState where
  phase : LoadPhase
  inFlight : List Request
  settled : List Request
  loading : Bool
  products : List Product
  cartItems : List CartItem
  notifications : List Notification
  reconciled : List (CartData × List Product)
deriving DecidableEq, Repr

/-- What can happen during the initial load: the mount effect calls
`onLoadfetchData()`, the request of `performAPICall` settles, the request of
`fetchCart` settles. -/
inductive LoadEvent where
  | mount
  | productsSettled (result : HttpResult (List Product))
  | cartSettled (result : HttpResult (List RawCartEntry))
deriving DecidableEq, Repr

/-- State of the freshly rendered component: `useState(true)` for `loading`,
`useState([])` for `products` and `cartItems`. -/
def LoadState.initial : LoadState :=
  { phase := .idle, inFlight := [], settled := [], loading := true, products := [],
    cartItems := [], notifications := [], reconciled := [] }

/-- The token when `!token` is false, `none` when it is true. -/
def presentToken (token : Option String) : Option String :=
  match token with
  | some token => if token = "" then none else some token
  | none => none

/-- The lines of `onLoadfetchData` after `await fetchCart(token)`:
`generateCartItemsFrom(cartData, productData)`, `setLoading(false)`,
`setProducts(productData)`, `setCartItems(cartItemsData)`. -/
def finishLoad (s : LoadState) (cart : FetchOutcome) (productData : List Product) : LoadState :=
  { s with
    phase := .done
    loading := false
    products := productData
    cartItems := generateCartItemsFrom cart.returned productData
    notifications := s.notifications ++ cart.notifications
    reconciled := s.reconciled ++ [(cart.returned, productData)] }

/-- Source `onLoadfetchData`, one step at a time.  `fetchCart(token)` is called
only when `await performAPICall()` has resumed, that is when the request for
the products has settled.  An event that does not match the phase leaves the
state unchanged. -/
def onLoadfetchData (config : Config) (token : Option String) (s : LoadState) :
    LoadEvent → LoadState
  | .mount =>
      match s.phase with
      | .idle => { s with phase := .awaitingProducts, inFlight := [getProductsRequest config] }
      | _ => s
  | .productsSettled result =>
      match s.phase with
      | .awaitingProducts =>
          let productData := performAPICall result
          let s1 := { s with inFlight := [], settled := s.settled ++ [getProductsRequest config] }
          match presentToken token with
          | some t =>
              { s1 with phase := .awaitingCart productData, inFlight := [getCartRequest config t] }
          | none => finishLoad s1 (fetchCart config (fun _ => .ok []) token) productData
      | _ => s
  | .cartSettled result =>
      match s.phase with
      | .awaitingCart productData =>
          let s1 := { s with inFlight := [], settled := s.settled ++ s.inFlight }
          finishLoad s1 (fetchCart config (fun _ => result) token) productData
      | _ => s

/-- States of the initial load that a run can reach. -/
inductive LoadReachable (config : Config) (token : Option String) : LoadState → Prop where
  | initial : LoadReachable config token LoadState.initial
  | step {s : LoadState} (event : LoadEvent) :
      LoadReachable config token s → LoadReachable config token (onLoadfetchData config token s event)

/-! ## Search debouncer -/

/-- A timer scheduled with `setTimeout` and neither fired nor cleared: its
handle and the time (in ms) from which it may fire. -/
structure Timer where
  id : Nat
  deadline : Nat
deriving DecidableEq, Repr

/-- State of the debouncer of the mounted component.  `now` is the clock in ms,
`nextId` the next handle `setTimeout` returns, `timers` the outstanding timers
in the order they were scheduled, `value` the current text of the header
search field (what `event.target.value` reads), `timerId` the state variable set by
`setTimerId` (`none` for `null`), `effectDep` the value of `timerId` that the
cleanup function registered by the effect closes over, and `queries` the
arguments of the calls of `performSearch` so far. -/
structure Debouncer where
  now : Nat
  nextId : Nat
  timers : List Timer
  value : String
  timerId : Option Nat
  effectDep : Option Nat
  queries : List String
deriving DecidableEq, Repr

/-- The debouncer right after the first render: `useState(null)` for `timerId`,
the effect has registered a cleanup closing over `null`. -/
def Debouncer.initial : Debouncer :=
  { now := 0, nextId := 1, timers := [], value := "", timerId := none, effectDep := none,
    queries := [] }

/-- Browser `clearTimeout(id)`: the timer with that handle, if any, is no longer
outstanding; `clearTimeout(null)` does nothing. -/
def clearTimeout (id : Option Nat) (s : Debouncer) : Debouncer :=
  { s with timers := s.timers.filter fun t => some t.id ≠ id }

/-- Source `debounceSearch`: schedules a timer with `setTimeout(..., 500)` and
stores its handle with `setTimerId`.  The argument `debounceTimeout` is not
used by the source and `clearTimeout` is not called here. -/
def debounceSearch (s : Debouncer) : Debouncer :=
  { s with
    timers := s.timers ++ [{ id := s.nextId, deadline := s.now + 500 }]
    nextId := s.nextId + 1
    timerId := some s.nextId }

/-- The `onChange` handler of the search field for an input event that leaves
`text` in the field: `debounceSearch(e, timerId)`. -/
def onChange (text : String) (s : Debouncer) : Debouncer :=
  debounceSearch { s with value := text }

/-- The effect `useEffect(() => () => clearTimeout(timerId), [timerId])` at a
re-render: when `timerId` differs from the value the registered cleanup closes
over, that cleanup runs and a cleanup closing over the new value is
registered. -/
def commitEffect (s : Debouncer) : Debouncer :=
  if s.timerId = s.effectDep then s
  else { clearTimeout s.effectDep s with effectDep := s.timerId }

/-- Time passes: `d` ms later every outstanding timer whose delay has elapsed
has fired, in the order scheduled, each calling
`performSearch(event.target.value)` with the text the field holds then. -/
def advance (d : Nat) (s : Debouncer) : Debouncer :=
  { s with
    now := s.now + d
    timers := s.timers.filter fun t => ¬ t.deadline ≤ s.now + d
    queries := s.queries ++ (s.timers.filter fun t => t.deadline ≤ s.now + d).map fun _ => s.value }

/-- The two search fields the component renders: the `search-desktop` field in
the header, whose `onChange` calls `debounceSearch`, and the `search-mobile`
field, which is given no `onChange`. -/
inductive SearchField where
  | desktop
  | mobile
deriving DecidableEq, Repr

/-- One input event of a run: `gap` is the time in ms since the previous input
event (since the first render, for the first one), `field` the search field it
happens in, `text` the text it leaves in that field, and `lag` the time in ms
between its handler and the moment React runs the effects of the re-render the
handler causes. -/
structure SearchEvent where
  gap : Nat
  field : SearchField
  text : String
  lag : Nat
deriving DecidableEq, Repr

/-- An input event reaches the component.  The mobile field has no handler.
For the header field React calls the `onChange` handler only when the event
has changed the text of the field. -/
def inputEvent (field : SearchField) (text : String) (s : Debouncer) : Debouncer :=
  match field with
  | .mobile => s
  | .desktop => if text = s.value then s else onChange text s

/-- A run of input events.  `pending` is the time after which the effects of
the previous handler run; React runs them at the latest before it dispatches
the next event.  Between two events the clock moves by `gap`, timers that
become due fire, and the effect runs at its time; then the event is handled. -/
def typeAll : Nat → List SearchEvent → Debouncer → Debouncer
  | _, [], s => s
  | pending, e :: es, s =>
      typeAll e.lag es
        (inputEvent e.field e.text
          (advance (e.gap - pending) (commitEffect (advance (min pending e.gap) s))))

/-- The component is left alone for `wait` ms after the last input event, whose
effects run after `pending` ms. -/
def settle (pending wait : Nat) (s : Debouncer) : Debouncer :=
  if pending ≤ wait then advance (wait - pending) (commitEffect (advance pending s))
  else advance wait s

/-- States of the debouncer that a run can reach, at the grain of single
handler calls: time passes, a re-render runs the effect, or an input event is
handled (React runs a pending effect before it dispatches the next event). -/
inductive DebounceReachable : Debouncer → Prop where
  | initial : DebounceReachable Debouncer.initial
  | tick {s : Debouncer} (d : Nat) : DebounceReachable s → DebounceReachable (advance d s)
  | render {s : Debouncer} : DebounceReachable s → DebounceReachable (commitEffect s)
  | input {s : Debouncer} (text : String) :
      DebounceReachable s → DebounceReachable (onChange text (commitEffect s))

/-! ## Sample data -/

/-- A value for `config`. -/
def sampleConfig : Config := { endpoint := "http://localhost:8082/api/v1" }

/-- Product `A` of the end-to-end scenario of the spec (cost 10). -/
def productA : Product :=
  { name := "A", category := "Phones", cost := 10, rating := 4, image := "", _id := "A" }

/-- Product `B` of the end-to-end scenario of the spec (cost 20). -/
def productB : Product :=
  { name := "B", category := "Sports", cost := 20, rating := 5, image := "", _id := "B" }

/-- The catalog of the end-to-end scenario of the spec. -/
def sampleCatalog : List Product := [productA, productB]

/-- The raw cart of the end-to-end scenario of the spec: `Z` is not in the
catalog. -/
def sampleCart : List RawCartEntry :=
  [{ productId := "A", qty := 2 }, { productId := "Z", qty := 5 }]

/-- The cart line for two units of product `A`. -/
def itemA : CartItem := { productId := "A", qty := 2, product := productA }

/-- A backend that answers every request with the sample cart. -/
def sampleBackend : Request → HttpResult (List RawCartEntry) := fun _ => .ok sampleCart

/-- A backend that fails every request with the given error. -/
def failingBackend (e : AxiosError) : Request → HttpResult (List RawCartEntry) :=
  fun _ => .rejected e

/-- The initial load of the end-to-end scenario, run to its end with the token
`t`: mount, the catalog arrives, the cart arrives. -/
def sampleLoad : LoadState :=
  onLoadfetchData sampleConfig (some "t")
    (onLoadfetchData sampleConfig (some "t")
      (onLoadfetchData sampleConfig (some "t") LoadState.initial .mount)
      (.productsSettled (.ok sampleCatalog)))
    (.cartSettled (.ok sampleCart))

/-- Three keystrokes in the header field: the first right after the first
render, the second 100 ms later, the third 495 ms after the second; the
effects run 3, 2 and 4 ms after the handlers. -/
def sampleBurst : List SearchEvent :=
  [{ gap := 0, field := .desktop, text := "s", lag := 3 },
   { gap := 100, field := .desktop, text := "sh", lag := 2 },
   { gap := 495, field := .desktop, text := "sho", lag := 4 }]

/-! ## Invariants -/

/-- What holds of the initial load in each phase of `onLoadfetchData`. -/
def LoadInv (config : Config) (token : Option String) (s : LoadState) : Prop :=
  match s.phase with
  | .idle => s.inFlight = [] ∧ s.settled = [] ∧ s.reconciled = [] ∧ s.cartItems = []
  | .awaitingProducts =>
      s.inFlight = [getProductsRequest config] ∧ s.settled = [] ∧ s.reconciled = [] ∧
        s.cartItems = []
  | .awaitingCart _ =>
      (∃ t, presentToken token = some t ∧ s.inFlight = [getCartRequest config t]) ∧
        s.settled = [getProductsRequest config] ∧ s.reconciled = [] ∧ s.cartItems = []
  | .done =>
      s.inFlight = [] ∧ getProductsRequest config ∈ s.settled ∧
        (∀ t, presentToken token = some t → getCartRequest config t ∈ s.settled) ∧
        ∃ cartData productData,
          s.reconciled = [(cartData, productData)] ∧
            s.cartItems = generateCartItemsFrom cartData productData

/-- What holds of the debouncer in every reachable state: the handles of the
outstanding timers are below `nextId` and pairwise different, and each is the
handle the registered cleanup closes over or the one stored in `timerId`. -/
structure DebounceInv (s : Debouncer) : Prop where
  fresh : ∀ t ∈ s.timers, t.id < s.nextId
  nodup : (s.timers.map Timer.id).Nodup
  owned : ∀ t ∈ s.timers, some t.id = s.effectDep ∨ some t.id = s.timerId

/-- The debouncer right after the handler of an input event of a burst, at
time `n`: the timer `m` it has scheduled, possibly the timer `old` of the
previous event, which the cleanup still has to clear, the text `v` in the
field and the queries `q` fired so far. -/
def handledState (n m : Nat) (old : Option Timer) (v : String) (q : List String) : Debouncer :=
  { now := n, nextId := m + 1, timers := old.toList ++ [{ id := m, deadline := n + 500 }],
    value := v, timerId := some m, effectDep := old.map Timer.id, queries := q }

/-! ## Theorems: cart mutator -/

/-- The test of `isItemInCart` succeeds exactly when some element of `items`
has the given `productId`. -/
theorem isItemInCart_iff (items : List CartItem) (productId : String) :
    isItemInCart items productId = true ↔ ∃ item ∈ items, item.productId = productId := by
  simp [isItemInCart, List.find?_isSome]

/-- C1: with a non-empty token, `preventDuplicate = true` and an element of
`items` carrying the given `productId`, `addToCart` sends no request, enqueues
the duplicate-item warning and nothing else, never calls `setCartItems` (the
cart state stays what it was) and resolves with `undefined`. -/
theorem addToCart_duplicate_rejected (config : Config)
    (backend : Request → HttpResult (List RawCartEntry)) (token : String)
    (items : List CartItem) (products : List Product) (productId : String) (qty : Int)
    (htoken : token ≠ "") (hdup : ∃ item ∈ items, item.productId = productId) :
    let outcome := addToCart config backend (some token) items products productId qty
      (some { preventDuplicate := true })
    isItemInCart items productId = true ∧
    outcome.requests = [] ∧
    outcome.notifications = [duplicateWarning] ∧
    outcome.setCartItems = [] ∧
    (∀ before, outcome.cartItemsAfter before = before) ∧
    outcome.returned = none := by
  have hin : isItemInCart items productId = true := (isItemInCart_iff items productId).2 hdup
  simp [addToCart, htoken, hin, CartOutcome.cartItemsAfter]

/-- C2: with an absent token (`null`, `undefined` or the empty string), whatever
the other arguments, `addToCart` sends no request, enqueues the login warning
and nothing else, never calls `setCartItems` and resolves with `undefined`. -/
theorem addToCart_unauthenticated (config : Config)
    (backend : Request → HttpResult (List RawCartEntry)) (token : Option String)
    (items : List CartItem) (products : List Product) (productId : String) (qty : Int)
    (options : Option Options) (htoken : token = none ∨ token = some "") :
    let outcome := addToCart config backend token items products productId qty options
    outcome.requests = [] ∧
    outcome.notifications = [loginWarning] ∧
    outcome.setCartItems = [] ∧
    (∀ before, outcome.cartItemsAfter before = before) ∧
    outcome.returned = none := by
  rcases htoken with h | h <;> subst h <;> simp [addToCart, CartOutcome.cartItemsAfter]

/-- C3: when both guards pass and `POST /cart` succeeds with the list `R`,
`addToCart` resolves with `R` and calls `setCartItems` once, with
`generateCartItemsFrom(R, products)`; the new cart state is that list whatever
the state before, and a call that differs only in `items` (and passes the
duplicate guard too) leaves the same cart state. -/
theorem addToCart_success_rederives (config : Config)
    (backend : Request → HttpResult (List RawCartEntry)) (token : String)
    (items : List CartItem) (products : List Product) (productId : String) (qty : Int)
    (options : Option Options) (R : List RawCartEntry)
    (htoken : token ≠ "")
    (hguard : ¬ ((options.getD { preventDuplicate := false }).preventDuplicate = true ∧
      isItemInCart items productId = true))
    (hpost : backend (postCartRequest config token productId qty) = .ok R) :
    let outcome := addToCart config backend (some token) items products productId qty options
    outcome.returned = some R ∧
    outcome.setCartItems = [generateCartItemsFrom (.data R) products] ∧
    (∀ before, outcome.cartItemsAfter before = generateCartItemsFrom (.data R) products) ∧
    (∀ items2 : List CartItem,
      ¬ ((options.getD { preventDuplicate := false }).preventDuplicate = true ∧
        isItemInCart items2 productId = true) →
      ∀ before before2,
        (addToCart config backend (some token) items2 products productId qty
          options).cartItemsAfter before2 = outcome.cartItemsAfter before) := by
  have key : ∀ items2 : List CartItem,
      ¬ ((options.getD { preventDuplicate := false }).preventDuplicate = true ∧
        isItemInCart items2 productId = true) →
      addToCart config backend (some token) items2 products productId qty options =
        { requests := [postCartRequest config token productId qty], notifications := [],
          setCartItems := [generateCartItemsFrom (.data R) products], returned := some R } := by
    intro items2 h2
    have h2b : ((options.getD { preventDuplicate := false }).preventDuplicate &&
        isItemInCart items2 productId) = false := by
      simpa [Bool.and_eq_true] using h2
    simp [addToCart, htoken, h2b, hpost, updateCartItems]
  intro outcome
  have hout := key items hguard
  refine ⟨by simp [outcome, hout], by simp [outcome, hout], ?_, ?_⟩
  · intro before
    simp [outcome, hout, CartOutcome.cartItemsAfter]
  · intro items2 h2 before before2
    simp [outcome, hout, key items2 h2, CartOutcome.cartItemsAfter]

/-- C4: when both guards pass and `POST /cart` fails, whatever the error (no
response, or a response of any status), `addToCart` enqueues the cart-update
error and nothing else, resolves with `undefined`, and never calls
`setCartItems`: the cart state is what it was before the call. -/
theorem addToCart_failure_keeps_cart (config : Config)
    (backend : Request → HttpResult (List RawCartEntry)) (token : String)
    (items : List CartItem) (products : List Product) (productId : String) (qty : Int)
    (options : Option Options) (e : AxiosError)
    (htoken : token ≠ "")
    (hguard : ¬ ((options.getD { preventDuplicate := false }).preventDuplicate = true ∧
      isItemInCart items productId = true))
    (hpost : backend (postCartRequest config token productId qty) = .rejected e) :
    let outcome := addToCart config backend (some token) items products productId qty options
    outcome.notifications = [cartUpdateError] ∧
    outcome.returned = none ∧
    outcome.setCartItems = [] ∧
    (∀ before, outcome.cartItemsAfter before = before) := by
  have hb : ((options.getD { preventDuplicate := false }).preventDuplicate &&
      isItemInCart items productId) = false := by
    simpa [Bool.and_eq_true] using hguard
  simp [addToCart, htoken, hb, hpost, CartOutcome.cartItemsAfter]

/-- C5: `addToCart` sends no request when a guard rejects the call (token
absent, or `preventDuplicate` set and the product in `items`) and exactly one
otherwise; with a token present and `options` omitted or
`{ preventDuplicate: false }` it sends exactly one `POST /cart`, also when the
product is in `items`, with body `{ productId, qty }` and the header
`Authorization: Bearer <token>`. -/
theorem addToCart_request_count (config : Config)
    (backend : Request → HttpResult (List RawCartEntry)) (token : Option String)
    (items : List CartItem) (products : List Product) (productId : String) (qty : Int)
    (options : Option Options) :
    let outcome := addToCart config backend token items products productId qty options
    (outcome.requests.length =
      if (token = none ∨ token = some "") ∨
          ((options.getD { preventDuplicate := false }).preventDuplicate = true ∧
            isItemInCart items productId = true)
      then 0 else 1) ∧
    (∀ t : String, token = some t → t ≠ "" →
      (options = none ∨ options = some { preventDuplicate := false }) →
      outcome.requests =
        [{ method := .POST
           url := config.endpoint ++ "/cart"
           authorization := some ("Bearer " ++ t)
           contentType := some "application/json"
           body := some (productId, qty) }]) := by
  intro outcome
  constructor
  · cases token with
    | none => simp [outcome, addToCart]
    | some t =>
      by_cases ht : t = ""
      · simp [outcome, addToCart, ht]
      · by_cases hg : ((options.getD { preventDuplicate := false }).preventDuplicate &&
            isItemInCart items productId) = true
        · have hg2 := hg
          rw [Bool.and_eq_true] at hg2
          simp [outcome, addToCart, ht, hg, hg2]
        · have hg2 : ¬ ((options.getD { preventDuplicate := false }).preventDuplicate = true ∧
              isItemInCart items productId = true) := by
            rwa [Bool.and_eq_true] at hg
          have hg3 : ((options.getD { preventDuplicate := false }).preventDuplicate &&
              isItemInCart items productId) = false := by simpa using hg
          rw [if_neg (by simp [ht, hg2])]
          cases hb : backend (postCartRequest config t productId qty) <;>
            simp [outcome, addToCart, ht, hg3, hb]
  · intro t ht hne hopt
    subst ht
    have hpd : ((options.getD { preventDuplicate := false }).preventDuplicate &&
        isItemInCart items productId) = false := by
      rcases hopt with h | h <;> subst h <;> simp
    cases hb : backend (postCartRequest config t productId qty) <;>
      simp [outcome, addToCart, hne, hpd, hb] <;> rfl

/-! ## Theorems: cart fetcher -/

/-- C8, as the code has it: when `GET /cart` fails with a token present,
`fetchCart` has sent that one request and no other, resolves with `null` and
enqueues exactly one notification: the message of the backend when the error
carries a response of status 400, the generic message for every other failure
(no response, or a response of any other status). -/
theorem fetchCart_failure_reported (config : Config)
    (backend : Request → HttpResult (List RawCartEntry)) (token : String) (e : AxiosError)
    (htoken : token ≠ "")
    (hget : backend (getCartRequest config token) = .rejected e) :
    let outcome := fetchCart config backend (some token)
    outcome.requests = [getCartRequest config token] ∧
    outcome.returned = .null ∧
    (∀ response, e.response = some response → response.status = 400 →
      outcome.notifications = [{ message := response.message, variant := .error }]) ∧
    ((∀ response, e.response = some response → response.status ≠ 400) →
      outcome.notifications = [fetchCartError]) := by
  intro outcome
  have hout : outcome = fetchCart config backend (some token) := rfl
  simp only [fetchCart, htoken, hget, if_false] at hout
  refine ⟨by simp [hout], by simp [hout], ?_, ?_⟩
  · intro response hr hs
    simp [hout, hr, hs]
  · intro h
    cases hr : e.response with
    | none => simp [hout, hr]
    | some response => simp [hout, hr, h response hr]

/-- C8, the claim as stated fails: on a 401 response carrying the message of the
backend, `fetchCart` shows the generic message, not that of the backend. -/
theorem fetchCart_401_shows_generic_message :
    (fetchCart { endpoint := "http://localhost:8082/api/v1" }
      (fun _ => .rejected
        { response := some { status := 401, message := "Protected route, Oauth2 Bearer token not found" } })
      (some "t")).notifications = [fetchCartError] ∧
    fetchCartError ≠
      { message := "Protected route, Oauth2 Bearer token not found", variant := .error } := by
  constructor
  · simp [fetchCart]
  · simp [fetchCartError]

/-- C9, what the code does: for an absent token (`null`, `undefined` or the
empty string) `fetchCart` sends no request and enqueues no notification, and it
resolves with `undefined`, which is not the `null` of the failure path. -/
theorem fetchCart_absent_token_returns_undefined (config : Config)
    (backend : Request → HttpResult (List RawCartEntry)) :
    fetchCart config backend none =
      { requests := [], notifications := [], returned := .undefined } ∧
    fetchCart config backend (some "") =
      { requests := [], notifications := [], returned := .undefined } ∧
    (fetchCart config backend (some "")).returned ≠ .null ∧
    (fetchCart config (fun _ => .rejected { response := none }) (some "t")).returned = .null := by
  simp [fetchCart]

/-! ## Theorems: initial load -/

/-- The phase invariant holds in every reachable state of the initial load. -/
theorem loadInv_of_reachable (config : Config) (token : Option String) (s : LoadState)
    (h : LoadReachable config token s) : LoadInv config token s := by
  induction h with
  | initial => simp [LoadInv, LoadState.initial]
  | @step s event _ ih =>
    cases event with
    | mount =>
      cases hp : s.phase <;> simp only [onLoadfetchData, hp] <;> try exact ih
      simp only [LoadInv, hp] at ih
      obtain ⟨_, h2, h3, h4⟩ := ih
      simp [LoadInv, h2, h3, h4]
    | productsSettled result =>
      cases hp : s.phase <;> simp only [onLoadfetchData, hp] <;> try exact ih
      simp only [LoadInv, hp] at ih
      obtain ⟨_, h2, h3, h4⟩ := ih
      cases ht : presentToken token with
      | none =>
        simp only [LoadInv, finishLoad, h2, h3]
        exact ⟨trivial, by simp, by simp [ht], _, _, rfl, rfl⟩
      | some t =>
        simp only [LoadInv, h2, h3, h4]
        exact ⟨⟨t, ht, rfl⟩, rfl, trivial, trivial⟩
    | cartSettled result =>
      cases hp : s.phase <;> simp only [onLoadfetchData, hp] <;> try exact ih
      simp only [LoadInv, hp] at ih
      obtain ⟨⟨t, ht, h1⟩, h2, h3, h4⟩ := ih
      simp only [LoadInv, finishLoad, h1, h2, h3]
      refine ⟨trivial, by simp, ?_, _, _, rfl, rfl⟩
      intro t2 ht2
      rw [ht] at ht2
      cases ht2
      simp

/-- Under the phase invariant at most one request is in flight, and a cart
request in flight means that the products request has settled. -/
theorem loadInv_inFlight (config : Config) (token : Option String) (s : LoadState)
    (h : LoadInv config token s) :
    s.inFlight.length ≤ 1 ∧
    (∀ t, getCartRequest config t ∈ s.inFlight →
      getProductsRequest config ∈ s.settled ∧ getProductsRequest config ∉ s.inFlight) := by
  unfold LoadInv at h
  cases hp : s.phase <;> rw [hp] at h <;> simp only at h
  · simp [h.1]
  · simp [h.1, getCartRequest, getProductsRequest]
  · obtain ⟨⟨t, _, h1⟩, h2, _⟩ := h
    simp [h1, h2, getCartRequest, getProductsRequest]
  · simp [h.1]

/-- C10, as the code has it: on initial load the two fetches run one after the
other.  In every reachable state at most one request is in flight, and when
`GET /cart` is in flight `GET /products` has already settled;
`generateCartItemsFrom` has been called only if nothing is in flight any more
and every request of the load has settled; once `onLoadfetchData` has returned
it has been called exactly once and the cart state is its result, and until
then the cart state is the empty list. -/
theorem onLoad_fetches_in_sequence (config : Config) (token : Option String) (s : LoadState)
    (h : LoadReachable config token s) :
    s.inFlight.length ≤ 1 ∧
    (∀ t, getCartRequest config t ∈ s.inFlight →
      getProductsRequest config ∈ s.settled ∧ getProductsRequest config ∉ s.inFlight) ∧
    (s.reconciled ≠ [] →
      s.inFlight = [] ∧ getProductsRequest config ∈ s.settled ∧
        ∀ t, presentToken token = some t → getCartRequest config t ∈ s.settled) ∧
    (s.phase = .done →
      ∃ cartData productData,
        s.reconciled = [(cartData, productData)] ∧
          s.cartItems = generateCartItemsFrom cartData productData) ∧
    (s.phase ≠ .done → s.cartItems = []) := by
  have hinv := loadInv_of_reachable config token s h
  obtain ⟨h1, h2⟩ := loadInv_inFlight config token s hinv
  refine ⟨h1, h2, ?_, ?_, ?_⟩
  · unfold LoadInv at hinv
    cases hp : s.phase <;> rw [hp] at hinv <;> simp only at hinv
    · simp [hinv.2.2.1]
    · simp [hinv.2.2.1]
    · simp [hinv.2.2.1]
    · intro _
      exact ⟨hinv.1, hinv.2.1, hinv.2.2.1⟩
  · intro hp
    unfold LoadInv at hinv
    rw [hp] at hinv
    exact hinv.2.2.2
  · intro hp
    unfold LoadInv at hinv
    cases hq : s.phase <;> rw [hq] at hinv <;> simp only at hinv
    · exact hinv.2.2.2
    · exact hinv.2.2.2
    · exact hinv.2.2.2
    · exact absurd hq hp

/-- C10, the claim as stated fails: `GET /cart` is not sent while
`GET /products` is in flight.  After the mount effect has called
`onLoadfetchData()` with a token present, the products request is the only one
in flight, and no reachable state has both requests in flight. -/
theorem onLoad_never_both_in_flight :
    (onLoadfetchData { endpoint := "http://localhost:8082/api/v1" } (some "t")
        LoadState.initial .mount).inFlight =
      [getProductsRequest { endpoint := "http://localhost:8082/api/v1" }] ∧
    ¬ ∃ (config : Config) (token : Option String) (s : LoadState),
        LoadReachable config token s ∧ getProductsRequest config ∈ s.inFlight ∧
          ∃ t, getCartRequest config t ∈ s.inFlight := by
  constructor
  · rfl
  · rintro ⟨config, token, s, hs, hp, t, hc⟩
    have hinv := loadInv_of_reachable config token s hs
    exact ((loadInv_inFlight config token s hinv).2 t hc).2 hp

/-! ## Theorems: search debouncer -/

/-- After the effect has run the cleanup knows the current `timerId`. -/
theorem commitEffect_timerId (s : Debouncer) :
    (commitEffect s).timerId = (commitEffect s).effectDep := by
  unfold commitEffect
  by_cases h : s.timerId = s.effectDep
  · rw [if_pos h]
    exact h
  · rw [if_neg h]
    rfl

/-- Every state of a run of input events is a reachable state of the
debouncer. -/
theorem typeAll_reachable (events : List SearchEvent) :
    ∀ (pending : Nat) (s : Debouncer), DebounceReachable s →
      DebounceReachable (typeAll pending events s) := by
  induction events with
  | nil =>
    intro _ s hs
    exact hs
  | cons e es ih =>
    intro pending s hs
    apply ih
    have hy : DebounceReachable
        (advance (e.gap - pending) (commitEffect (advance (min pending e.gap) s))) :=
      .tick _ (.render (.tick _ hs))
    have heq : commitEffect (advance (e.gap - pending)
        (commitEffect (advance (min pending e.gap) s))) =
        advance (e.gap - pending) (commitEffect (advance (min pending e.gap) s)) := by
      have h := commitEffect_timerId (advance (min pending e.gap) s)
      unfold commitEffect at h ⊢
      exact if_pos h
    unfold inputEvent
    cases e.field with
    | mobile => exact hy
    | desktop =>
      simp only
      split
      · exact hy
      · have := DebounceReachable.input e.text hy
        rwa [heq] at this

/-- The states in which a run is left alone are reachable states of the
debouncer. -/
theorem settle_reachable (pending wait : Nat) (s : Debouncer) (hs : DebounceReachable s) :
    DebounceReachable (settle pending wait s) := by
  unfold settle
  split
  · exact .tick _ (.render (.tick _ hs))
  · exact .tick _ hs

/-- From the state after one handler to the state after the next: when the next
event changes the text of the header field and its effects run less than
500 ms after the previous handler, the previous timer is cleared before it is
due and nothing fires. -/
theorem inputEvent_handledState (n m a b lag : Nat) (old : Option Timer) (v text : String)
    (q : List String) (hold : ∀ t, old = some t → t.id < m ∧ n + a < t.deadline)
    (hlag : a + b + lag < 500) (htext : text ≠ v) :
    inputEvent .desktop text (advance b (commitEffect (advance a (handledState n m old v q)))) =
      handledState (n + a + b) (m + 1) (some { id := m, deadline := n + 500 }) text q := by
  have h1 : ¬ n + 500 ≤ n + a := by omega
  have h2 : ¬ n + 500 ≤ n + a + b := by omega
  have h3 : ¬ 500 ≤ a := by omega
  have h4 : ¬ 500 ≤ a + b := by omega
  have h8 : n + a + b < n + 500 := by omega
  have hv : ¬ text = v := htext
  cases old with
  | none =>
    simp [handledState, advance, commitEffect, clearTimeout, inputEvent, onChange,
      debounceSearch, List.filter, h1, h2, h3, h4, h8, hv]
  | some t =>
    obtain ⟨ht1, ht2⟩ := hold t rfl
    have h5 : ¬ t.deadline ≤ n + a := by omega
    have h6 : ¬ m = t.id := by omega
    have h7 : ¬ t.id = m := by omega
    simp [handledState, advance, commitEffect, clearTimeout, inputEvent, onChange,
      debounceSearch, List.filter, h1, h2, h3, h4, h5, h6, h7, h8, hv]

/-- A burst of input events in the header field, each changing the text and
each with its effects run less than 500 ms after the previous handler, ends
right after the last handler with nothing fired and the text of the last
event in the field. -/
theorem typeAll_handledState (rest : List SearchEvent) :
    ∀ (first : SearchEvent) (n m : Nat) (old : Option Timer) (q : List String),
      (∀ t, old = some t → t.id < m ∧ n + first.lag < t.deadline) →
      (∀ e ∈ rest, e.field = .desktop) →
      List.Chain (· ≠ ·) first.text (rest.map SearchEvent.text) →
      (∀ e ∈ rest, e.gap + e.lag < 500) →
      ∃ n2 m2 old2,
        (∀ t, old2 = some t →
          t.id < m2 ∧ n2 + ((first :: rest).getLast (List.cons_ne_nil _ _)).lag < t.deadline) ∧
        typeAll first.lag rest (handledState n m old first.text q) =
          handledState n2 m2 old2 ((first :: rest).getLast (List.cons_ne_nil _ _)).text q := by
  induction rest with
  | nil =>
    intro first n m old q hold _ _ _
    exact ⟨n, m, old, hold, rfl⟩
  | cons e rest ih =>
    intro first n m old q hold hfield htext hgap
    have he : e.gap + e.lag < 500 := hgap e (List.mem_cons_self _ _)
    have hf : e.field = .desktop := hfield e (List.mem_cons_self _ _)
    have hrest : ∀ x ∈ rest, x.gap + x.lag < 500 := fun x hx => hgap x (List.mem_cons_of_mem _ hx)
    have hfrest : ∀ x ∈ rest, x.field = .desktop := fun x hx => hfield x (List.mem_cons_of_mem _ hx)
    rw [List.map_cons, List.chain_cons] at htext
    have hsum : min first.lag e.gap + (e.gap - first.lag) = e.gap := by omega
    have hold2 : ∀ t, old = some t → t.id < m ∧ n + min first.lag e.gap < t.deadline := by
      intro t ht
      have := hold t ht
      exact ⟨this.1, by omega⟩
    have hstep := inputEvent_handledState n m (min first.lag e.gap) (e.gap - first.lag) e.lag old
      first.text e.text q hold2 (by omega) (Ne.symm htext.1)
    have hnew : ∀ t, some ({ id := m, deadline := n + 500 } : Timer) = some t →
        t.id < m + 1 ∧ n + min first.lag e.gap + (e.gap - first.lag) + e.lag < t.deadline := by
      intro t ht
      cases ht
      exact ⟨Nat.lt_succ_self m, by show _ < n + 500; omega⟩
    obtain ⟨n2, m2, old2, hold3, h⟩ :=
      ih e (n + min first.lag e.gap + (e.gap - first.lag)) (m + 1)
        (some { id := m, deadline := n + 500 }) q hnew hfrest htext.2 hrest
    refine ⟨n2, m2, old2, ?_, ?_⟩
    · simpa [List.getLast_cons] using hold3
    · have hunfold : typeAll first.lag (e :: rest) (handledState n m old first.text q) =
          typeAll e.lag rest (inputEvent e.field e.text (advance (e.gap - first.lag)
            (commitEffect (advance (min first.lag e.gap) (handledState n m old first.text q))))) :=
        rfl
      rw [hunfold, hf, hstep, h]
      simp [List.getLast_cons]

/-- Left alone after a handler, with the effects run before the previous timer is
due, the debouncer fires the timer of that handler once its 500 ms have
elapsed, with the text the field holds, and nothing else. -/
theorem settle_handledState (n m p wait : Nat) (old : Option Timer) (v : String)
    (q : List String) (hold : ∀ t, old = some t → t.id < m ∧ n + p < t.deadline) :
    (settle p wait (handledState n m old v q)).queries =
      q ++ if 500 ≤ wait then [v] else [] := by
  unfold settle
  by_cases hp : p ≤ wait
  · rw [if_pos hp]
    by_cases h500 : 500 ≤ p
    · have hw : 500 ≤ wait := by omega
      have h1 : n + 500 ≤ n + p := by omega
      cases old with
      | none =>
        simp [handledState, advance, commitEffect, clearTimeout, List.filter, h1, h500, hw]
      | some t =>
        obtain ⟨ht1, ht2⟩ := hold t rfl
        have h2 : ¬ t.deadline ≤ n + p := by omega
        have h3 : ¬ m = t.id := by omega
        have h4 : ¬ t.id = m := by omega
        simp [handledState, advance, commitEffect, clearTimeout, List.filter, h1, h2, h3, h4,
          h500, hw]
    · have h1 : ¬ n + 500 ≤ n + p := by omega
      have h5 : n + p + (wait - p) = n + wait := by omega
      by_cases hw : 500 ≤ wait
      · have h6 : n + 500 ≤ n + wait := by omega
        cases old with
        | none =>
          simp [handledState, advance, commitEffect, clearTimeout, List.filter, h1, h5, h6,
            h500, hw]
        | some t =>
          obtain ⟨ht1, ht2⟩ := hold t rfl
          have h2 : ¬ t.deadline ≤ n + p := by omega
          have h3 : ¬ m = t.id := by omega
          have h4 : ¬ t.id = m := by omega
          simp [handledState, advance, commitEffect, clearTimeout, List.filter, h1, h2, h3, h4,
            h5, h6, h500, hw]
      · have h6 : ¬ n + 500 ≤ n + wait := by omega
        cases old with
        | none =>
          simp [handledState, advance, commitEffect, clearTimeout, List.filter, h1, h5, h6,
            h500, hw]
        | some t =>
          obtain ⟨ht1, ht2⟩ := hold t rfl
          have h2 : ¬ t.deadline ≤ n + p := by omega
          have h3 : ¬ m = t.id := by omega
          have h4 : ¬ t.id = m := by omega
          simp [handledState, advance, commitEffect, clearTimeout, List.filter, h1, h2, h3, h4,
            h5, h6, h500, hw]
  · rw [if_neg hp]
    by_cases hw : 500 ≤ wait
    · have h6 : n + 500 ≤ n + wait := by omega
      cases old with
      | none => simp [handledState, advance, List.filter, h6, hw]
      | some t =>
        obtain ⟨ht1, ht2⟩ := hold t rfl
        have h2 : ¬ t.deadline ≤ n + wait := by omega
        simp [handledState, advance, List.filter, h2, h6, hw]
    · have h6 : ¬ n + 500 ≤ n + wait := by omega
      cases old with
      | none => simp [handledState, advance, List.filter, h6, hw]
      | some t =>
        obtain ⟨ht1, ht2⟩ := hold t rfl
        have h2 : ¬ t.deadline ≤ n + wait := by omega
        simp [handledState, advance, List.filter, h2, h6, hw]

/-- C6, as the code has it: for every sequence of N >= 1 input events in the
header search field of the mounted component, each changing the text of the
field, in which for every event after the first the event arrives and the
`timerId` cleanup effect of its re-render runs less than 500 ms after the
previous event, no query has fired when the last event has been handled, and
once 500 ms have passed after it exactly one call of `performSearch` has been
made, with the text of the last event; before that none has. -/
theorem debounce_burst_fires_once (events : List SearchEvent) (hne : events ≠ [])
    (hfield : ∀ e ∈ events, e.field = .desktop)
    (htext : List.Chain (· ≠ ·) "" (events.map SearchEvent.text))
    (hgap : ∀ e ∈ events.tail, e.gap + e.lag < 500) (wait : Nat) :
    (typeAll 0 events Debouncer.initial).queries = [] ∧
    (settle (events.getLast hne).lag wait (typeAll 0 events Debouncer.initial)).queries =
      if 500 ≤ wait then [(events.getLast hne).text] else [] := by
  cases events with
  | nil => exact absurd rfl hne
  | cons first rest =>
    rw [List.map_cons, List.chain_cons] at htext
    have hf : first.field = .desktop := hfield first (List.mem_cons_self _ _)
    have hfrest : ∀ x ∈ rest, x.field = .desktop := fun x hx => hfield x (List.mem_cons_of_mem _ hx)
    have hv : ¬ first.text = "" := Ne.symm htext.1
    have hfirst : typeAll 0 (first :: rest) Debouncer.initial =
        typeAll first.lag rest (handledState first.gap 1 none first.text []) := by
      have h0 : inputEvent first.field first.text (advance (first.gap - 0)
          (commitEffect (advance (min 0 first.gap) Debouncer.initial))) =
          handledState first.gap 1 none first.text [] := by
        simp [hf, inputEvent, advance, Debouncer.initial, handledState, onChange, debounceSearch,
          commitEffect, hv]
      show typeAll first.lag rest (inputEvent first.field first.text (advance (first.gap - 0)
          (commitEffect (advance (min 0 first.gap) Debouncer.initial)))) = _
      rw [h0]
    obtain ⟨n2, m2, old2, hold2, h⟩ :=
      typeAll_handledState rest first first.gap 1 none [] (by simp) hfrest htext.2 hgap
    rw [hfirst, h]
    refine ⟨rfl, ?_⟩
    rw [settle_handledState n2 m2 _ wait old2 _ [] hold2]
    simp

/-- C6, the claim as stated fails, in three ways.  Two events in the header
field 499 ms apart, the cleanup of the second running 1 ms after its handler
(a reachable state of the debouncer): the timer of the first event fires
before it is cleared and two queries are made.  Three events 400 ms apart of which the second leaves the text
unchanged: the handler is not called for it, the first timer fires, and two
queries are made.  One event in the mobile field: no query is made. -/
theorem debounce_burst_not_one_query :
    DebounceReachable (settle 1 500 (typeAll 0
      [{ gap := 0, field := .desktop, text := "a", lag := 0 },
       { gap := 499, field := .desktop, text := "ab", lag := 1 }]
      Debouncer.initial)) ∧
    (settle 1 500 (typeAll 0
      [{ gap := 0, field := .desktop, text := "a", lag := 0 },
       { gap := 499, field := .desktop, text := "ab", lag := 1 }]
      Debouncer.initial)).queries = ["ab", "ab"] ∧
    (settle 0 500 (typeAll 0
      [{ gap := 0, field := .desktop, text := "a", lag := 0 },
       { gap := 400, field := .desktop, text := "a", lag := 0 },
       { gap := 400, field := .desktop, text := "ab", lag := 0 }]
      Debouncer.initial)).queries = ["a", "ab"] ∧
    (settle 0 500 (typeAll 0
      [{ gap := 0, field := .mobile, text := "a", lag := 0 }]
      Debouncer.initial)).queries = [] := by
  refine ⟨settle_reachable _ _ _ (typeAll_reachable _ _ _ .initial), ?_, ?_, ?_⟩ <;> decide

/-- A duplicate-free list whose elements all are `a` or `b` has at most two
elements, and at most one when `a = b`. -/
theorem length_le_of_nodup_of_mem_pair {α : Type} [DecidableEq α] (l : List α) (a b : α)
    (hn : l.Nodup) (h : ∀ x ∈ l, x = a ∨ x = b) :
    l.length ≤ 2 ∧ (a = b → l.length ≤ 1) := by
  have hsub : l.toFinset ⊆ {a, b} := by
    intro x hx
    have hx2 : x ∈ l := List.mem_toFinset.1 hx
    simpa using h x hx2
  have hlen : l.length = l.toFinset.card := (List.toFinset_card_of_nodup hn).symm
  constructor
  · calc l.length = l.toFinset.card := hlen
      _ ≤ ({a, b} : Finset α).card := Finset.card_le_card hsub
      _ ≤ 2 := Finset.card_le_two
  · intro hab
    subst hab
    calc l.length = l.toFinset.card := hlen
      _ ≤ ({a, a} : Finset α).card := Finset.card_le_card hsub
      _ ≤ 1 := by simp

/-- Under the invariant at most two timers are outstanding, and at most one
when the cleanup knows the current `timerId`. -/
theorem debounceInv_length (s : Debouncer) (h : DebounceInv s) :
    s.timers.length ≤ 2 ∧ (s.timerId = s.effectDep → s.timers.length ≤ 1) := by
  have hn : (s.timers.map fun t => some t.id).Nodup := by
    have := h.nodup.map (Option.some_injective Nat)
    simpa [List.map_map] using this
  have hmem : ∀ x ∈ s.timers.map (fun t => some t.id), x = s.effectDep ∨ x = s.timerId := by
    intro x hx
    obtain ⟨t, ht, rfl⟩ := List.mem_map.1 hx
    exact h.owned t ht
  have := length_le_of_nodup_of_mem_pair _ s.effectDep s.timerId hn hmem
  simp only [List.length_map] at this
  exact ⟨this.1, fun heq => this.2 heq.symm⟩

/-- The invariant holds right after the first render. -/
theorem debounceInv_initial : DebounceInv Debouncer.initial :=
  ⟨by simp [Debouncer.initial], by simp [Debouncer.initial], by simp [Debouncer.initial]⟩

/-- The passing of time keeps the invariant. -/
theorem debounceInv_advance (d : Nat) (s : Debouncer) (h : DebounceInv s) :
    DebounceInv (advance d s) := by
  refine ⟨?_, ?_, ?_⟩
  · intro t ht
    exact h.fresh t (List.mem_of_mem_filter ht)
  · exact h.nodup.sublist ((List.filter_sublist _).map _)
  · intro t ht
    exact h.owned t (List.mem_of_mem_filter ht)

/-- The effect keeps the invariant, and after it the cleanup knows the current
`timerId`. -/
theorem debounceInv_commitEffect (s : Debouncer) (h : DebounceInv s) :
    DebounceInv (commitEffect s) ∧ (commitEffect s).timerId = (commitEffect s).effectDep := by
  unfold commitEffect
  by_cases heq : s.timerId = s.effectDep
  · rw [if_pos heq]
    exact ⟨h, heq⟩
  · rw [if_neg heq]
    refine ⟨⟨?_, ?_, ?_⟩, rfl⟩
    · intro t ht
      exact h.fresh t (List.mem_of_mem_filter ht)
    · exact h.nodup.sublist ((List.filter_sublist _).map _)
    · intro t ht
      have hmem : t ∈ s.timers := List.mem_of_mem_filter ht
      have hne : some t.id ≠ s.effectDep := by
        have := (List.mem_filter.1 ht).2
        simpa using this
      rcases h.owned t hmem with h1 | h1
      · exact absurd h1 hne
      · exact Or.inl h1

/-- The `onChange` handler keeps the invariant when it runs after the effect. -/
theorem debounceInv_onChange (text : String) (s : Debouncer) (h : DebounceInv s)
    (heq : s.timerId = s.effectDep) : DebounceInv (onChange text s) := by
  refine ⟨?_, ?_, ?_⟩
  · intro t ht
    simp only [onChange, debounceSearch, List.mem_append, List.mem_singleton] at ht
    rcases ht with ht | ht
    · exact Nat.lt_succ_of_lt (h.fresh t ht)
    · subst ht
      exact Nat.lt_succ_self _
  · simp only [onChange, debounceSearch, List.map_append, List.map_cons, List.map_nil]
    refine List.Nodup.append h.nodup (List.nodup_singleton _) ?_
    intro x hx hx2
    obtain ⟨t, ht, rfl⟩ := List.mem_map.1 hx
    have hlt := h.fresh t ht
    simp only [List.mem_singleton] at hx2
    omega
  · intro t ht
    simp only [onChange, debounceSearch, List.mem_append, List.mem_singleton] at ht
    rcases ht with ht | ht
    · left
      rcases h.owned t ht with h1 | h1
      · exact h1
      · exact h1.trans heq
    · right
      subst ht
      rfl

/-- The invariant holds in every reachable state of the debouncer. -/
theorem debounceInv_of_reachable (s : Debouncer) (h : DebounceReachable s) : DebounceInv s := by
  induction h with
  | initial => exact debounceInv_initial
  | tick d _ ih => exact debounceInv_advance d _ ih
  | render _ ih => exact (debounceInv_commitEffect _ ih).1
  | input text _ ih =>
    exact debounceInv_onChange text _ (debounceInv_commitEffect _ ih).1
      (debounceInv_commitEffect _ ih).2

/-- C7, as the code has it: in every reachable state of the debouncer at most two
timers are outstanding, and at most one whenever the cleanup effect has run
for the current `timerId`; in particular the re-render that follows an input
event leaves at most one timer. -/
theorem debounce_at_most_two_timers (s : Debouncer) (h : DebounceReachable s) :
    s.timers.length ≤ 2 ∧
    (s.timerId = s.effectDep → s.timers.length ≤ 1) ∧
    (commitEffect s).timers.length ≤ 1 := by
  have hinv := debounceInv_of_reachable s h
  have hc := debounceInv_commitEffect s hinv
  exact ⟨(debounceInv_length s hinv).1, (debounceInv_length s hinv).2,
    (debounceInv_length _ hc.1).2 hc.2⟩

/-- C7, the claim as stated fails: `debounceSearch` schedules the new timer
without cancelling the pending one.  Right after the handler of a second input
event, 100 ms after the first, both timers are outstanding; the effect of the
re-render then clears the first. -/
theorem debounce_two_timers_outstanding :
    DebounceReachable
      (onChange "ab" (commitEffect (advance 100 (onChange "a" (commitEffect Debouncer.initial))))) ∧
    (onChange "ab" (commitEffect (advance 100
      (onChange "a" (commitEffect Debouncer.initial))))).timers =
        [{ id := 1, deadline := 500 }, { id := 2, deadline := 600 }] ∧
    (commitEffect (onChange "ab" (commitEffect (advance 100
      (onChange "a" (commitEffect Debouncer.initial)))))).timers =
        [{ id := 2, deadline := 600 }] := by
  refine ⟨.input "ab" (.tick 100 (.input "a" .initial)), ?_, ?_⟩
  · decide
  · decide

/-! ## Instances -/

/-- C1 at a concrete call: the end-to-end scenario of the spec, product `A`
already in the cart and `preventDuplicate` set. -/
theorem addToCart_duplicate_rejected_witness :
    "t" ≠ "" ∧ (∃ item ∈ [itemA], item.productId = "A") ∧
    (addToCart sampleConfig sampleBackend (some "t") [itemA] sampleCatalog "A" 1
      (some { preventDuplicate := true })).requests = [] ∧
    (addToCart sampleConfig sampleBackend (some "t") [itemA] sampleCatalog "A" 1
      (some { preventDuplicate := true })).notifications = [duplicateWarning] ∧
    (addToCart sampleConfig sampleBackend (some "t") [itemA] sampleCatalog "A" 1
      (some { preventDuplicate := true })).returned = none := by
  have h := addToCart_duplicate_rejected sampleConfig sampleBackend "t" [itemA] sampleCatalog
    "A" 1 (by decide) ⟨itemA, by simp, rfl⟩
  exact ⟨by decide, ⟨itemA, by simp, rfl⟩, h.2.1, h.2.2.1, h.2.2.2.2.2⟩

/-- C2 at a concrete call: the empty token, product `A` already in the cart and
`preventDuplicate` set. -/
theorem addToCart_unauthenticated_witness :
    ((some "" : Option String) = none ∨ (some "" : Option String) = some "") ∧
    (addToCart sampleConfig sampleBackend (some "") [itemA] sampleCatalog "A" 1
      (some { preventDuplicate := true })).requests = [] ∧
    (addToCart sampleConfig sampleBackend (some "") [itemA] sampleCatalog "A" 1
      (some { preventDuplicate := true })).notifications = [loginWarning] ∧
    (addToCart sampleConfig sampleBackend (some "") [itemA] sampleCatalog "A" 1
      (some { preventDuplicate := true })).returned = none := by
  have h := addToCart_unauthenticated sampleConfig sampleBackend (some "") [itemA] sampleCatalog
    "A" 1 (some { preventDuplicate := true }) (Or.inr rfl)
  exact ⟨Or.inr rfl, h.1, h.2.1, h.2.2.2.2⟩

/-- C3 at a concrete call: the backend answers with the sample cart, and the new
cart state is the one line for product `A`, whatever the state before. -/
theorem addToCart_success_rederives_witness :
    "t" ≠ "" ∧
    sampleBackend (postCartRequest sampleConfig "t" "A" 2) = .ok sampleCart ∧
    (addToCart sampleConfig sampleBackend (some "t") [] sampleCatalog "A" 2 none).returned =
      some sampleCart ∧
    (addToCart sampleConfig sampleBackend (some "t") [] sampleCatalog "A" 2 none).cartItemsAfter
      [] = generateCartItemsFrom (.data sampleCart) sampleCatalog ∧
    generateCartItemsFrom (.data sampleCart) sampleCatalog = [itemA] := by
  have h := addToCart_success_rederives sampleConfig sampleBackend "t" [] sampleCatalog "A" 2
    none sampleCart (by decide) (by simp) rfl
  exact ⟨by decide, rfl, h.1, h.2.2.1 [], by decide⟩

/-- C4 at a concrete call: the backend answers 404, the cart state stays the one
line it was. -/
theorem addToCart_failure_keeps_cart_witness :
    "t" ≠ "" ∧
    failingBackend { response := some { status := 404, message := "Product does not exist" } }
      (postCartRequest sampleConfig "t" "Q" 1) =
        .rejected { response := some { status := 404, message := "Product does not exist" } } ∧
    (addToCart sampleConfig
      (failingBackend { response := some { status := 404, message := "Product does not exist" } })
      (some "t") [itemA] sampleCatalog "Q" 1 (some { preventDuplicate := true })).notifications =
        [cartUpdateError] ∧
    (addToCart sampleConfig
      (failingBackend { response := some { status := 404, message := "Product does not exist" } })
      (some "t") [itemA] sampleCatalog "Q" 1 (some { preventDuplicate := true })).cartItemsAfter
        [itemA] = [itemA] := by
  have h := addToCart_failure_keeps_cart sampleConfig
    (failingBackend { response := some { status := 404, message := "Product does not exist" } })
    "t" [itemA] sampleCatalog "Q" 1 (some { preventDuplicate := true })
    { response := some { status := 404, message := "Product does not exist" } }
    (by decide) (by decide) rfl
  exact ⟨by decide, rfl, h.1, h.2.2.2 [itemA]⟩

/-- C5 at a concrete call: token present, `options` omitted, product `A` already
in the cart; one `POST /cart` is sent. -/
theorem addToCart_request_count_witness :
    (some "t" : Option String) = some "t" ∧ "t" ≠ "" ∧
    ((none : Option Options) = none ∨ (none : Option Options) = some { preventDuplicate := false }) ∧
    (addToCart sampleConfig sampleBackend (some "t") [itemA] sampleCatalog "A" 3 none).requests =
      [{ method := .POST
         url := sampleConfig.endpoint ++ "/cart"
         authorization := some ("Bearer " ++ "t")
         contentType := some "application/json"
         body := some ("A", 3) }] :=
  ⟨rfl, by decide, Or.inl rfl,
    (addToCart_request_count sampleConfig sampleBackend (some "t") [itemA] sampleCatalog "A" 3
      none).2 "t" rfl (by decide) (Or.inl rfl)⟩

/-- C6 at a concrete burst: three keystrokes in the header field, the last
495 ms after the second with its cleanup 4 ms later; 500 ms after the last one
query has fired, for the last text. -/
theorem debounce_burst_fires_once_witness :
    sampleBurst ≠ [] ∧ (∀ e ∈ sampleBurst, e.field = .desktop) ∧
    List.Chain (· ≠ ·) "" (sampleBurst.map SearchEvent.text) ∧
    (∀ e ∈ sampleBurst.tail, e.gap + e.lag < 500) ∧
    (typeAll 0 sampleBurst Debouncer.initial).queries = [] ∧
    (settle 4 500 (typeAll 0 sampleBurst Debouncer.initial)).queries = ["sho"] := by
  have hchain : List.Chain (· ≠ ·) "" (sampleBurst.map SearchEvent.text) := by
    simp [sampleBurst]
  have h := debounce_burst_fires_once sampleBurst (by decide) (by decide) hchain (by decide) 500
  exact ⟨by decide, by decide, hchain, by decide, h.1, h.2.trans (by decide)⟩

/-- C7 at a concrete state: right after the handler of a second keystroke. -/
theorem debounce_at_most_two_timers_witness :
    DebounceReachable (onChange "sh" (commitEffect (onChange "s" (commitEffect Debouncer.initial)))) ∧
    (onChange "sh" (commitEffect (onChange "s" (commitEffect Debouncer.initial)))).timers.length ≤ 2 ∧
    (commitEffect (onChange "sh" (commitEffect
      (onChange "s" (commitEffect Debouncer.initial))))).timers.length ≤ 1 := by
  have h := debounce_at_most_two_timers _ (.input "sh" (.input "s" .initial))
  exact ⟨.input "sh" (.input "s" .initial), h.1, h.2.2⟩

/-- C8 at a concrete failure: a 400 response, whose message is shown. -/
theorem fetchCart_failure_reported_witness :
    "t" ≠ "" ∧
    failingBackend { response := some { status := 400, message := "Bad request" } }
      (getCartRequest sampleConfig "t") =
        .rejected { response := some { status := 400, message := "Bad request" } } ∧
    (fetchCart sampleConfig
      (failingBackend { response := some { status := 400, message := "Bad request" } })
      (some "t")).notifications = [{ message := "Bad request", variant := .error }] ∧
    (fetchCart sampleConfig
      (failingBackend { response := some { status := 400, message := "Bad request" } })
      (some "t")).returned = .null := by
  have h := fetchCart_failure_reported sampleConfig
    (failingBackend { response := some { status := 400, message := "Bad request" } }) "t"
    { response := some { status := 400, message := "Bad request" } } (by decide) rfl
  exact ⟨by decide, rfl, h.2.2.1 _ rfl rfl, h.2.1⟩

/-- C10 at a concrete run: the end-to-end scenario of the spec, run to its end;
the cart state is the one line for product `A`. -/
theorem onLoad_fetches_in_sequence_witness :
    LoadReachable sampleConfig (some "t") sampleLoad ∧
    sampleLoad.inFlight.length ≤ 1 ∧
    (sampleLoad.phase = .done →
      ∃ cartData productData,
        sampleLoad.reconciled = [(cartData, productData)] ∧
          sampleLoad.cartItems = generateCartItemsFrom cartData productData) ∧
    sampleLoad.cartItems = [itemA] := by
  have hr : LoadReachable sampleConfig (some "t") sampleLoad :=
    .step _ (.step _ (.step _ .initial))
  have h := onLoad_fetches_in_sequence sampleConfig (some "t") sampleLoad hr
  exact ⟨hr, h.1, h.2.2.2.1, by decide⟩

end Qkart
